import Mathlib

/-! The C++ dummy micro simulation (`examples/cpp-dummy/micro_cpp_dummy.cpp`)

A shallow embedding of the pybind11 class `MicroSimulation` and of its pickle
hook pair, followed by the properties of its host-facing contract.

Modelling conventions.

* `R` is the carrier of the C++ type `double`.  The program only uses the
  literals `0` and `1.` and the operation `+` on it, so the embedding is generic
  in `R` and every universally quantified result holds for IEEE binary64 as
  well as for exact numbers.  Closed statements are evaluated at `R := ℚ`, on
  values that binary64 represents exactly.
* A method of the class is a function from the instance before the call to the
  instance after the call together with the outcome (`Except`): a C++ exception
  does not roll back the assignments made before it was thrown.
* `uint` is the 32 bit `unsigned int` of the platform headers, `size_t` is
  wider (LP64).  The counter of the loop in `solve` therefore wraps modulo
  `2 ^ 32`, and the loop is given fuel: `none` means it has not left the loop.
-/

namespace MicroDummy

/-! ## Host values -/

/-- Exceptions that reach the Python host. -/
inductive PyErr where
  /-- `KeyError`: subscript of a `py::dict` with a key it does not hold. -/
  | keyError (key : String)
  /-- `IndexError`: subscript of a `py::list` past its end. -/
  | indexError
  /-- `pybind11::cast_error`: the object does not convert to the C++ type. -/
  | castError
  /-- `std::runtime_error` with its message. -/
  | runtimeError (msg : String)
  deriving DecidableEq, Repr

/-- Python objects as the module sees them.  Besides the two kinds the module
itself creates, an object is described by what the two conversions used in the
source, `cast<double>()` and `cast<py::array_t<double>>()`, make of it. -/
inductive PyObj (R : Type) where
  /-- A Python `float`. -/
  | float (x : R)
  /-- A Python `list` of floats, what `py::cast(std::vector<double>)` builds. -/
  | floats (xs : List R)
  /-- Any other object (`None`, `str`, `int`, a numpy array, ...): `asDouble` is
  the result of `cast<double>()` on it, `asArray` the `size()` doubles found at
  `data()` after `cast<py::array_t<double>>()`; `none` is a failed conversion. -/
  | other (asDouble : Option R) (asArray : Option (List R))
  deriving DecidableEq, Repr

/-- A `py::dict` with string keys, in insertion order. -/
abbrev PyDict (R : Type) := List (String × PyObj R)

/-- A `py::list`. -/
abbrev PyList (R : Type) := List (PyObj R)

variable {R : Type}

/-- The read `d[key]` of a `py::dict`: `KeyError` when the key is missing. -/
def getItem (d : PyDict R) (key : String) : Except PyErr (PyObj R) :=
  match d.lookup key with
  | some o => .ok o
  | none => .error (.keyError key)

/-- The assignment `d[key] = value` of a `py::dict`. -/
def setItem : PyDict R → String → PyObj R → PyDict R
  | [], key, value => [(key, value)]
  | (k, v) :: d, key, value =>
    if k = key then (key, value) :: d else (k, v) :: setItem d key value

/-- The read `l[i]` of a `py::list`: `IndexError` when `i` is past the end. -/
def listItem (l : PyList R) (i : Nat) : Except PyErr (PyObj R) :=
  match l[i]? with
  | some o => .ok o
  | none => .error .indexError

/-- The conversion `o.cast<double>()`. -/
def castDouble : PyObj R → Except PyErr R
  | .float x => .ok x
  | .floats _ => .error .castError
  | .other (some x) _ => .ok x
  | .other none _ => .error .castError

/-- The conversion `o.cast<py::array_t<double>>()` followed by the copy of its
`size()` elements into a `std::vector<double>` (line 28).  A Python float
converts to a zero-dimensional array of one element. -/
def castArray : PyObj R → Except PyErr (List R)
  | .float x => .ok [x]
  | .floats xs => .ok xs
  | .other _ (some xs) => .ok xs
  | .other _ none => .error .castError

/-! ## The class -/

/-- Number of bits of the C++ type `uint`. -/
def UINT_BITS : Nat := 32

/-- The data members of `MicroSimulation`. -/
structure MicroSimulation (R : Type) where
  _micro_scalar_data : R
  _micro_vector_data : List R
  _state : R
  deriving DecidableEq, Repr

/-- The constructor (line 16): `_micro_scalar_data(0), _state(0)`, the vector
default-constructed. -/
def MicroSimulation.construct [Zero R] : MicroSimulation R :=
  { _micro_scalar_data := 0, _micro_vector_data := [], _state := 0 }

/-- The loop of lines 32-35,
`for (uint i = 0; i < v.size(); i++) v[i] += 1.;`, entered with counter `i`.
The counter is a `uint`, so `i++` wraps; the comparison is made in `size_t`. -/
def addOneLoop [One R] [Add R] : Nat → Nat → List R → Option (List R)
  | 0, _, _ => none
  | fuel + 1, i, v =>
    if h : i < v.length then
      addOneLoop fuel ((i + 1) % 2 ^ UINT_BITS) (v.set i (v[i] + 1))
    else
      some v

/-- The method `solve` (lines 19-45).  `none`: the loop has not terminated
within `fuel` iterations. -/
def MicroSimulation.solve [One R] [Add R] (fuel : Nat) (ms : MicroSimulation R)
    (macro_data : PyDict R) (_dt : R) :
    Option (MicroSimulation R × Except PyErr (PyDict R)) :=
  -- line 24
  match getItem macro_data "macro-scalar-data" >>= castDouble with
  | .error e => some (ms, .error e)
  | .ok macro_scalar_data =>
    -- line 27
    match getItem macro_data "macro-vector-data" >>= castArray with
    | .error e => some (ms, .error e)
    | .ok macro_vector_data =>
      -- line 28
      let ms1 := { ms with _micro_vector_data := macro_vector_data }
      -- line 31
      let ms2 := { ms1 with _micro_scalar_data := macro_scalar_data + 1 }
      -- lines 32-35
      match addOneLoop fuel 0 ms2._micro_vector_data with
      | none => none
      | some v =>
        let ms3 := { ms2 with _micro_vector_data := v }
        -- lines 38-44
        let micro_write_data : PyDict R := []
        let micro_write_data :=
          setItem micro_write_data "micro-scalar-data" (.float ms3._micro_scalar_data)
        let micro_write_data :=
          setItem micro_write_data "micro-vector-data" (.floats ms3._micro_vector_data)
        some (ms3, .ok micro_write_data)

/-- The method `set_state` (lines 48-52): two reads and conversions, each
followed at once by its assignment. -/
def MicroSimulation.set_state (ms : MicroSimulation R) (state : PyList R) :
    MicroSimulation R × Except PyErr Unit :=
  -- line 50
  match listItem state 0 >>= castDouble with
  | .error e => (ms, .error e)
  | .ok s =>
    let ms1 := { ms with _micro_scalar_data := s }
    -- line 51
    match listItem state 1 >>= castDouble with
    | .error e => (ms1, .error e)
    | .ok a => ({ ms1 with _state := a }, .ok ())

/-- The method `get_state` (lines 55-60), a `const` member. -/
def MicroSimulation.get_state (ms : MicroSimulation R) : PyList R :=
  [.float ms._micro_scalar_data, .float ms._state]

/-- The first function of `py::pickle` (lines 72-74). -/
def __getstate__ (ms : MicroSimulation R) : PyList R :=
  ms.get_state

/-- The second function of `py::pickle` (lines 75-85). -/
def __setstate__ [Zero R] (t : PyList R) : Except PyErr (MicroSimulation R) :=
  if t.length ≠ 2 then
    .error (.runtimeError "Invalid state!")
  else
    let ms : MicroSimulation R := MicroSimulation.construct
    match ms.set_state t with
    | (_, .error e) => .error e
    | (ms, .ok ()) => .ok ms

/-- The macro record `{"macro-scalar-data": s, "macro-vector-data": v}` whose
vector is a Python list of floats. -/
def macroRecord (s : R) (v : List R) : PyDict R :=
  [("macro-scalar-data", .float s), ("macro-vector-data", .floats v)]

/-- What a caller of `solve` can see of one call: the outcome handed to the
host and the two members `solve` assigns. -/
def observe (p : MicroSimulation R × Except PyErr (PyDict R)) :
    Except PyErr (PyDict R) × R × List R :=
  (p.2, p.1._micro_scalar_data, p.1._micro_vector_data)

/-! ## The loop of `solve` -/

section
variable [One R] [Add R]

/-- One pass of the loop over a vector shorter than `2 ^ 32`: entered at
the end of `pre`, it leaves with one added to each element after `pre`. -/
theorem addOneLoop_append (suf : List R) :
    ∀ (pre : List R) (fuel : Nat), (pre ++ suf).length < 2 ^ UINT_BITS → suf.length < fuel →
      addOneLoop fuel pre.length (pre ++ suf) = some (pre ++ suf.map (· + 1)) := by
  induction suf with
  | nil =>
    intro pre fuel _ hf
    obtain ⟨f, rfl⟩ : ∃ f, fuel = f + 1 := ⟨fuel - 1, by simp at hf; omega⟩
    simp [addOneLoop]
  | cons x rest ih =>
    intro pre fuel hlen hf
    obtain ⟨f, rfl⟩ : ∃ f, fuel = f + 1 := ⟨fuel - 1, by simp at hf; omega⟩
    have hi : pre.length < (pre ++ x :: rest).length := by simp
    have hmod : (pre.length + 1) % 2 ^ UINT_BITS = (pre ++ [x + 1]).length := by
      simp only [List.length_append, List.length_cons, List.length_nil] at hlen ⊢
      exact Nat.mod_eq_of_lt (by omega)
    have hset : (pre ++ x :: rest).set pre.length ((pre ++ x :: rest)[pre.length] + 1)
        = (pre ++ [x + 1]) ++ rest := by
      have hx : (pre ++ x :: rest)[pre.length] = x := List.getElem_of_append rfl rfl
      simp [hx]
    rw [addOneLoop, dif_pos hi, hmod, hset, ih]
    · simp
    · simpa using hlen
    · simpa using hf

theorem addOneLoop_terminates (v : List R) (h : v.length < 2 ^ UINT_BITS) :
    addOneLoop (v.length + 1) 0 v = some (v.map (· + 1)) := by
  simpa using addOneLoop_append v [] (v.length + 1) (by simpa using h) (Nat.lt_succ_self _)

theorem addOneLoop_diverges (fuel : Nat) :
    ∀ (i : Nat) (v : List R), 2 ^ UINT_BITS ≤ v.length → i < 2 ^ UINT_BITS →
      addOneLoop fuel i v = none := by
  induction fuel with
  | zero => intro i v _ _; rfl
  | succ f ih =>
    intro i v hv hi
    have h : i < v.length := lt_of_lt_of_le hi hv
    rw [addOneLoop, dif_pos h]
    exact ih _ _ (by simpa using hv) (Nat.mod_lt _ (by positivity))

theorem addOneLoop_fuel_irrelevant (f1 : Nat) :
    ∀ (f2 i : Nat) (v w1 w2 : List R), addOneLoop f1 i v = some w1 →
      addOneLoop f2 i v = some w2 → w1 = w2 := by
  induction f1 with
  | zero => intro f2 i v w1 w2 h1; simp [addOneLoop] at h1
  | succ f ih =>
    intro f2 i v w1 w2 h1 h2
    cases f2 with
    | zero => simp [addOneLoop] at h2
    | succ g =>
      rw [addOneLoop] at h1 h2
      by_cases h : i < v.length
      · rw [dif_pos h] at h1 h2
        exact ih _ _ _ _ _ h1 h2
      · rw [dif_neg h] at h1 h2
        exact (Option.some.inj h1).symm.trans (Option.some.inj h2)

/-- What `solve` does once both fields of the macro record have been decoded. -/
theorem solve_of_decoded (fuel : Nat) (ms : MicroSimulation R) (d : PyDict R) (dt s : R)
    (v : List R) (hs : getItem d "macro-scalar-data" >>= castDouble = .ok s)
    (hv : getItem d "macro-vector-data" >>= castArray = .ok v) :
    ms.solve fuel d dt = (addOneLoop fuel 0 v).map (fun w =>
      (({ _micro_scalar_data := s + 1, _micro_vector_data := w, _state := ms._state } :
          MicroSimulation R),
        (.ok [("micro-scalar-data", .float (s + 1)), ("micro-vector-data", .floats w)] :
          Except PyErr (PyDict R)))) := by
  unfold MicroSimulation.solve
  rw [hs, hv]
  dsimp only
  cases addOneLoop fuel 0 v <;> simp [setItem]

theorem solve_of_scalar_error (fuel : Nat) (ms : MicroSimulation R) (d : PyDict R) (dt : R)
    (e : PyErr) (hs : getItem d "macro-scalar-data" >>= castDouble = .error e) :
    ms.solve fuel d dt = some (ms, .error e) := by
  unfold MicroSimulation.solve
  rw [hs]

theorem solve_of_vector_error (fuel : Nat) (ms : MicroSimulation R) (d : PyDict R) (dt s : R)
    (e : PyErr) (hs : getItem d "macro-scalar-data" >>= castDouble = .ok s)
    (hv : getItem d "macro-vector-data" >>= castArray = .error e) :
    ms.solve fuel d dt = some (ms, .error e) := by
  unfold MicroSimulation.solve
  rw [hs, hv]

/-- With a vector of at least `2 ^ 32` elements the counter wraps before it
reaches the size, and `solve` stays in its loop whatever the fuel. -/
theorem solve_of_long_vector (fuel : Nat) (ms : MicroSimulation R) (d : PyDict R) (dt s : R)
    (v : List R) (hs : getItem d "macro-scalar-data" >>= castDouble = .ok s)
    (hv : getItem d "macro-vector-data" >>= castArray = .ok v)
    (hlen : 2 ^ UINT_BITS ≤ v.length) :
    ms.solve fuel d dt = none := by
  rw [solve_of_decoded fuel ms d dt s v hs hv,
    addOneLoop_diverges fuel 0 v hlen (by positivity)]
  rfl

end

/-- Line 24 on a dict of the two macro keys whose scalar is a Python float. -/
theorem getItem_scalar_of_pair (s : R) (o : PyObj R) :
    getItem [("macro-scalar-data", .float s), ("macro-vector-data", o)] "macro-scalar-data"
      >>= castDouble = .ok s := by
  simp [getItem, castDouble, bind, Except.bind]

/-- Line 27 on a dict of the two macro keys whose vector object converts to `v`. -/
theorem getItem_vector_of_pair (o1 : PyObj R) (v : List R) :
    getItem [("macro-scalar-data", o1), ("macro-vector-data", .other none (some v))]
      "macro-vector-data" >>= castArray = .ok v := by
  simp [getItem, castArray, bind, Except.bind, List.lookup]

/-- The outcome of `set_state` by the two reads of lines 50 and 51. -/
theorem set_state_cases (ms : MicroSimulation R) (l : PyList R) :
    (∃ e, listItem l 0 >>= castDouble = .error e ∧ ms.set_state l = (ms, .error e)) ∨
    (∃ s e, listItem l 0 >>= castDouble = .ok s ∧ listItem l 1 >>= castDouble = .error e ∧
      ms.set_state l = ({ ms with _micro_scalar_data := s }, .error e)) ∨
    (∃ s a, listItem l 0 >>= castDouble = .ok s ∧ listItem l 1 >>= castDouble = .ok a ∧
      ms.set_state l = ({ ms with _micro_scalar_data := s, _state := a }, .ok ())) := by
  unfold MicroSimulation.set_state
  cases h0 : listItem l 0 >>= castDouble with
  | error e => exact Or.inl ⟨e, rfl, rfl⟩
  | ok s =>
    cases h1 : listItem l 1 >>= castDouble with
    | error e => exact Or.inr (Or.inl ⟨s, e, rfl, rfl, rfl⟩)
    | ok a => exact Or.inr (Or.inr ⟨s, a, rfl, rfl, rfl⟩)

/-- On a list that starts with two Python floats `set_state` assigns both. -/
theorem set_state_of_two_floats (ms : MicroSimulation R) (s a : R) (tl : PyList R) :
    ms.set_state (.float s :: .float a :: tl) =
      ({ _micro_scalar_data := s, _micro_vector_data := ms._micro_vector_data, _state := a },
        .ok ()) := by
  simp [MicroSimulation.set_state, listItem, castDouble, bind, Except.bind]

/-- The call `set_state` on the snapshot of an instance `A`. -/
theorem set_state_of_get_state (ms A : MicroSimulation R) :
    ms.set_state A.get_state =
      ({ _micro_scalar_data := A._micro_scalar_data,
         _micro_vector_data := ms._micro_vector_data, _state := A._state }, .ok ()) :=
  set_state_of_two_floats ms _ _ []

/-! ## `solve` -/

/-- C1 (the code departs from it): `solve` does not return on every sequence.
On the macro record whose vector is a numpy array of `2 ^ 32` zeros, the `uint`
counter of the loop wraps to `0` before it reaches the size, so no amount of
fuel lets the call on a fresh instance return. -/
theorem solve_never_returns_on_long_vector :
    ∀ fuel : Nat,
      (MicroSimulation.construct : MicroSimulation ℚ).solve fuel
        [("macro-scalar-data", .float 0),
         ("macro-vector-data", .other none (some (List.replicate (2 ^ 32) 0)))] 0 = none := by
  intro fuel
  exact solve_of_long_vector fuel _ _ _ 0 (List.replicate (2 ^ 32) 0)
    (getItem_scalar_of_pair _ _) (getItem_vector_of_pair _ _)
    (le_of_eq (List.length_replicate _ _).symm)

/-- X1: for a macro record that decodes to the scalar `s` and to a vector `v` of
fewer than `2 ^ 32` elements, `solve` returns after `v.length + 1` loop tests,
for every instance and every `dt`: the output record and the instance hold
`s + 1` and `v` with one added to each element, which has the length of `v`. -/
theorem solve_adds_one [One R] [Add R] (ms : MicroSimulation R) (d : PyDict R) (dt s : R)
    (v : List R) (hs : getItem d "macro-scalar-data" >>= castDouble = .ok s)
    (hv : getItem d "macro-vector-data" >>= castArray = .ok v)
    (hlen : v.length < 2 ^ UINT_BITS) :
    ∃ w : List R,
      ms.solve (v.length + 1) d dt =
        some ({ _micro_scalar_data := s + 1, _micro_vector_data := w, _state := ms._state },
          .ok [("micro-scalar-data", .float (s + 1)), ("micro-vector-data", .floats w)]) ∧
      w.length = v.length ∧ ∀ i : Fin v.length, w[i.val]? = some (v[i.val] + 1) := by
  refine ⟨v.map (· + 1), ?_, by simp, ?_⟩
  · rw [solve_of_decoded _ ms d dt s v hs hv, addOneLoop_terminates v hlen]
    rfl
  · intro i
    simp

theorem solve_adds_one_witness :
    (2 : ℚ) = 1 + 1 ∧
    ∃ w : List ℚ,
      (MicroSimulation.construct : MicroSimulation ℚ).solve 4 (macroRecord 1 [0, 0, 0]) (1 / 10) =
        some ({ _micro_scalar_data := 1 + 1, _micro_vector_data := w, _state := 0 },
          .ok [("micro-scalar-data", .float (1 + 1)), ("micro-vector-data", .floats w)]) ∧
      w.length = 3 ∧ ∀ i : Fin 3, w[i.val]? = some (([0, 0, 0] : List ℚ)[i.val] + 1) :=
  ⟨by norm_num,
    solve_adds_one MicroSimulation.construct (macroRecord 1 [0, 0, 0]) (1 / 10) 1 [0, 0, 0]
      rfl rfl (by simp [UINT_BITS])⟩

/-- C6: `solve` never alters `_state`.  Whatever the instance, the input dict
and `dt`: when the call returns (with a record or with an exception) the second
element of `get_state()` is what it was before, and when it returns a record
the macro scalar decoded to some `s` and the first element is `s + 1`; and on a
dict that decodes to `s` and to a vector of fewer than `2 ^ 32` elements the
call does return a record, leaving `get_state()` at `[s + 1, _state]`. -/
theorem solve_preserves_aux [One R] [Add R] (ms : MicroSimulation R) (d : PyDict R) (dt : R) :
    (∀ (fuel : Nat) (ms' : MicroSimulation R) (r : Except PyErr (PyDict R)),
      ms.solve fuel d dt = some (ms', r) →
        ms'.get_state[1]? = ms.get_state[1]? ∧
        ∀ out, r = .ok out →
          ∃ s, getItem d "macro-scalar-data" >>= castDouble = .ok s ∧
            ms'.get_state[0]? = some (.float (s + 1))) ∧
    (∀ (s : R) (v : List R), getItem d "macro-scalar-data" >>= castDouble = .ok s →
      getItem d "macro-vector-data" >>= castArray = .ok v → v.length < 2 ^ UINT_BITS →
        ∃ ms' out, ms.solve (v.length + 1) d dt = some (ms', .ok out) ∧
          ms'.get_state = [.float (s + 1), .float ms._state]) := by
  constructor
  · intro fuel ms' r h
    cases hs : getItem d "macro-scalar-data" >>= castDouble with
    | error e =>
      rw [solve_of_scalar_error fuel ms d dt e hs] at h
      obtain ⟨rfl, rfl⟩ := Prod.mk.inj (Option.some.inj h)
      exact ⟨rfl, fun out ho => by cases ho⟩
    | ok s =>
      cases hv : getItem d "macro-vector-data" >>= castArray with
      | error e =>
        rw [solve_of_vector_error fuel ms d dt s e hs hv] at h
        obtain ⟨rfl, rfl⟩ := Prod.mk.inj (Option.some.inj h)
        exact ⟨rfl, fun out ho => by cases ho⟩
      | ok v =>
        rw [solve_of_decoded fuel ms d dt s v hs hv] at h
        cases hl : addOneLoop fuel 0 v with
        | none => rw [hl] at h; cases h
        | some w =>
          rw [hl] at h
          obtain ⟨rfl, rfl⟩ := Prod.mk.inj (Option.some.inj h)
          exact ⟨rfl, fun out _ => ⟨s, rfl, rfl⟩⟩
  · intro s v hs hv hlen
    rw [solve_of_decoded _ ms d dt s v hs hv, addOneLoop_terminates v hlen]
    exact ⟨_, _, rfl, rfl⟩

/-- C8, as the code has it: `solve` is atomic on a decode failure.  When the
lookup of `"macro-scalar-data"` or of `"macro-vector-data"` in the input dict
fails (`KeyError`) or the conversion of the object found there fails, the call
returns with that exception and the instance, scalar, vector and `_state`, is
exactly the instance before the call.  An object of another kind than the
record schema names that does convert is not such a failure. -/
theorem solve_decode_failure_atomic [One R] [Add R] (fuel : Nat) (ms : MicroSimulation R)
    (d : PyDict R) (dt : R)
    (h : (∃ e, getItem d "macro-scalar-data" >>= castDouble = .error e) ∨
         (∃ e, getItem d "macro-vector-data" >>= castArray = .error e)) :
    ∃ e, ms.solve fuel d dt = some (ms, .error e) := by
  cases hs : getItem d "macro-scalar-data" >>= castDouble with
  | error e => exact ⟨e, solve_of_scalar_error fuel ms d dt e hs⟩
  | ok s =>
    rcases h with ⟨e, he⟩ | ⟨e, he⟩
    · rw [hs] at he; cases he
    · exact ⟨e, solve_of_vector_error fuel ms d dt s e hs he⟩

theorem solve_decode_failure_atomic_witness :
    ((∃ e, getItem ([("macro-scalar-data", .float 1)] : PyDict ℚ) "macro-scalar-data"
          >>= castDouble = .error e) ∨
      (∃ e, getItem ([("macro-scalar-data", .float 1)] : PyDict ℚ) "macro-vector-data"
          >>= castArray = .error e)) ∧
    ∃ e, (⟨5, [7], 3⟩ : MicroSimulation ℚ).solve 0 [("macro-scalar-data", .float 1)] 1 =
      some (⟨5, [7], 3⟩, .error e) :=
  ⟨Or.inr ⟨.keyError "macro-vector-data", rfl⟩,
    solve_decode_failure_atomic 0 _ _ _ (Or.inr ⟨.keyError "macro-vector-data", rfl⟩)⟩

/-- C8 as stated fails: a field of the wrong kind need not make `solve` fail.
With a Python float where the sequence of reals belongs, the conversion of
line 27 yields an array of one element, so on the instance holding scalar `5`,
vector `[7]` and `_state` `3` the call
`solve({"macro-scalar-data": 1.0, "macro-vector-data": 2.0}, 0.0)` returns a
record and leaves scalar `2` and vector `[3]` in the instance. -/
theorem solve_accepts_float_as_vector :
    (⟨5, [7], 3⟩ : MicroSimulation ℚ).solve 2
        [("macro-scalar-data", .float 1), ("macro-vector-data", .float 2)] 0
      = some (⟨2, [3], 3⟩,
          .ok [("micro-scalar-data", .float 2), ("micro-vector-data", .floats [3])]) ∧
    (⟨2, [3], 3⟩ : MicroSimulation ℚ) ≠ ⟨5, [7], 3⟩ := by
  constructor
  · have h : (⟨5, [7], 3⟩ : MicroSimulation ℚ).solve 2
          [("macro-scalar-data", .float 1), ("macro-vector-data", .float 2)] 0
        = some (⟨1 + 1, [2 + 1], 3⟩,
            .ok [("micro-scalar-data", .float (1 + 1)),
                 ("micro-vector-data", .floats [2 + 1])]) := rfl
    rw [h]
    norm_num
  · decide

/-- C10: the result of `solve` depends only on the macro record.  For two
instances in arbitrary states and two values of `dt`, on a dict that decodes to
the scalar `s` and the vector `v`: with equal fuel the two calls agree on
whether they return, on the record returned and on the scalar and vector left
in the instance; two calls that return agree on these whatever their fuel; and
when `v` has fewer than `2 ^ 32` elements both return the same record. -/
theorem solve_depends_only_on_record [One R] [Add R] (ms₁ ms₂ : MicroSimulation R)
    (d : PyDict R) (dt₁ dt₂ s : R) (v : List R)
    (hs : getItem d "macro-scalar-data" >>= castDouble = .ok s)
    (hv : getItem d "macro-vector-data" >>= castArray = .ok v) :
    (∀ fuel, (ms₁.solve fuel d dt₁).map observe = (ms₂.solve fuel d dt₂).map observe) ∧
    (∀ f₁ f₂ r₁ r₂, ms₁.solve f₁ d dt₁ = some r₁ → ms₂.solve f₂ d dt₂ = some r₂ →
      observe r₁ = observe r₂) ∧
    (v.length < 2 ^ UINT_BITS →
      ∃ out w,
        ms₁.solve (v.length + 1) d dt₁ = some (⟨s + 1, w, ms₁._state⟩, .ok out) ∧
        ms₂.solve (v.length + 1) d dt₂ = some (⟨s + 1, w, ms₂._state⟩, .ok out)) := by
  refine ⟨?_, ?_, ?_⟩
  · intro fuel
    rw [solve_of_decoded fuel ms₁ d dt₁ s v hs hv, solve_of_decoded fuel ms₂ d dt₂ s v hs hv]
    cases addOneLoop fuel 0 v <;> rfl
  · intro f₁ f₂ r₁ r₂ h₁ h₂
    rw [solve_of_decoded f₁ ms₁ d dt₁ s v hs hv] at h₁
    rw [solve_of_decoded f₂ ms₂ d dt₂ s v hs hv] at h₂
    cases hl₁ : addOneLoop f₁ 0 v with
    | none => rw [hl₁] at h₁; cases h₁
    | some w₁ =>
      cases hl₂ : addOneLoop f₂ 0 v with
      | none => rw [hl₂] at h₂; cases h₂
      | some w₂ =>
        rw [hl₁] at h₁
        rw [hl₂] at h₂
        have hw : w₁ = w₂ := addOneLoop_fuel_irrelevant f₁ f₂ 0 v w₁ w₂ hl₁ hl₂
        subst hw
        rw [← Option.some.inj h₁, ← Option.some.inj h₂]
        rfl
  · intro hlen
    refine ⟨[("micro-scalar-data", .float (s + 1)),
        ("micro-vector-data", .floats (v.map (· + 1)))], v.map (· + 1), ?_, ?_⟩
    · rw [solve_of_decoded _ ms₁ d dt₁ s v hs hv, addOneLoop_terminates v hlen]
      rfl
    · rw [solve_of_decoded _ ms₂ d dt₂ s v hs hv, addOneLoop_terminates v hlen]
      rfl

theorem solve_depends_only_on_record_witness :
    (getItem (macroRecord (4 : ℚ) [1]) "macro-scalar-data" >>= castDouble = .ok 4 ∧
      getItem (macroRecord (4 : ℚ) [1]) "macro-vector-data" >>= castArray = .ok [1]) ∧
    ((∀ fuel, ((⟨5, [7], 3⟩ : MicroSimulation ℚ).solve fuel (macroRecord 4 [1]) 1).map observe =
        ((⟨0, [], 0⟩ : MicroSimulation ℚ).solve fuel (macroRecord 4 [1]) 2).map observe) ∧
      (∀ f₁ f₂ r₁ r₂,
        (⟨5, [7], 3⟩ : MicroSimulation ℚ).solve f₁ (macroRecord 4 [1]) 1 = some r₁ →
        (⟨0, [], 0⟩ : MicroSimulation ℚ).solve f₂ (macroRecord 4 [1]) 2 = some r₂ →
        observe r₁ = observe r₂) ∧
      (([1] : List ℚ).length < 2 ^ UINT_BITS →
        ∃ out w,
          (⟨5, [7], 3⟩ : MicroSimulation ℚ).solve (([1] : List ℚ).length + 1)
              (macroRecord 4 [1]) 1 = some (⟨4 + 1, w, 3⟩, .ok out) ∧
          (⟨0, [], 0⟩ : MicroSimulation ℚ).solve (([1] : List ℚ).length + 1)
              (macroRecord 4 [1]) 2 = some (⟨4 + 1, w, 0⟩, .ok out))) :=
  ⟨⟨rfl, rfl⟩,
    solve_depends_only_on_record ⟨5, [7], 3⟩ ⟨0, [], 0⟩ (macroRecord 4 [1]) 1 2 4 [1] rfl rfl⟩

/-! ## `set_state`, `get_state` and the pickle pair -/

/-- C2: for every instance and all reals `s` and `a`, `set_state([s, a])`
succeeds and `get_state()` then returns exactly `[s, a]`, in that order; and a
fresh instance set from the snapshot of any instance `A` returns that snapshot
from its own `get_state()`. -/
theorem get_state_after_set_state [Zero R] (ms : MicroSimulation R) (s a : R) :
    (ms.set_state [.float s, .float a]).2 = .ok () ∧
    (ms.set_state [.float s, .float a]).1.get_state = [.float s, .float a] ∧
    ∀ A : MicroSimulation R,
      ((MicroSimulation.construct : MicroSimulation R).set_state A.get_state).2 = .ok () ∧
      ((MicroSimulation.construct : MicroSimulation R).set_state A.get_state).1.get_state
        = A.get_state := by
  refine ⟨?_, ?_, fun A => ⟨?_, ?_⟩⟩
  · rw [set_state_of_two_floats]
  · rw [set_state_of_two_floats]; rfl
  · rw [set_state_of_get_state]
  · rw [set_state_of_get_state]; rfl

/-- C3 (the code departs from it): `set_state` has no length test.  On the
three-element list `[1.0, 2.0, 3.0]` it returns normally, having assigned the
first two elements, where the pickle function of the same file, which tests
`t.size() != 2` first, throws; and on the one-element list `[1.0]` it has
assigned the scalar before it throws. -/
theorem set_state_accepts_three_elements :
    (MicroSimulation.construct : MicroSimulation ℚ).set_state [.float 1, .float 2, .float 3]
      = (⟨1, [], 2⟩, .ok ()) ∧
    (__setstate__ [.float 1, .float 2, .float 3] : Except PyErr (MicroSimulation ℚ))
      = .error (.runtimeError "Invalid state!") ∧
    (MicroSimulation.construct : MicroSimulation ℚ).set_state [.float 1]
      = (⟨1, [], 0⟩, .error .indexError) :=
  ⟨rfl, rfl, rfl⟩

/-- C4, as the code has it: when `set_state` fails, `_state` and the vector are
what they were before the call; and when the failure comes from the first
element (the list is empty, or its first element does not convert to a real)
the whole instance is unchanged, so `get_state()` returns the prior pair. -/
theorem set_state_failure_frame (ms : MicroSimulation R) (l : PyList R) (e : PyErr)
    (h : (ms.set_state l).2 = .error e) :
    (ms.set_state l).1._state = ms._state ∧
    (ms.set_state l).1._micro_vector_data = ms._micro_vector_data ∧
    ((∃ e₀, listItem l 0 >>= castDouble = .error e₀) →
      (ms.set_state l).1 = ms ∧ (ms.set_state l).1.get_state = ms.get_state) := by
  rcases set_state_cases ms l with ⟨e₀, _, hr⟩ | ⟨s, e₁, h0, _, hr⟩ | ⟨s, a, _, _, hr⟩
  · rw [hr]
    exact ⟨rfl, rfl, fun _ => ⟨rfl, rfl⟩⟩
  · rw [hr]
    refine ⟨rfl, rfl, ?_⟩
    rintro ⟨e₀, he₀⟩
    rw [h0] at he₀
    cases he₀
  · rw [hr] at h
    cases h

theorem set_state_failure_frame_witness :
    ((⟨5, [7], 3⟩ : MicroSimulation ℚ).set_state []).2 = .error .indexError ∧
    (((⟨5, [7], 3⟩ : MicroSimulation ℚ).set_state [])).1._state = 3 ∧
    (((⟨5, [7], 3⟩ : MicroSimulation ℚ).set_state [])).1._micro_vector_data = [7] ∧
    ((∃ e₀, listItem ([] : PyList ℚ) 0 >>= castDouble = .error e₀) →
      ((⟨5, [7], 3⟩ : MicroSimulation ℚ).set_state []).1 = ⟨5, [7], 3⟩ ∧
      ((⟨5, [7], 3⟩ : MicroSimulation ℚ).set_state []).1.get_state
        = (⟨5, [7], 3⟩ : MicroSimulation ℚ).get_state) :=
  ⟨rfl, set_state_failure_frame ⟨5, [7], 3⟩ [] .indexError rfl⟩

/-- C4 as stated fails: on a fresh instance `set_state([1.0, "x"])` throws the
conversion error of its second element after the scalar has been assigned, and
`set_state([1.0])` throws `IndexError` after the scalar has been assigned; in
both cases `get_state()` no longer returns the prior pair `[0, 0]`. -/
theorem set_state_not_atomic :
    ((MicroSimulation.construct : MicroSimulation ℚ).set_state
        [.float 1, .other none none]).2 = .error .castError ∧
    ((MicroSimulation.construct : MicroSimulation ℚ).set_state
        [.float 1, .other none none]).1.get_state = [.float 1, .float 0] ∧
    ((MicroSimulation.construct : MicroSimulation ℚ).set_state [.float 1]).2
      = .error .indexError ∧
    ((MicroSimulation.construct : MicroSimulation ℚ).set_state [.float 1]).1.get_state
      = [.float 1, .float 0] ∧
    (MicroSimulation.construct : MicroSimulation ℚ).get_state = [.float 0, .float 0] ∧
    ([.float 1, .float 0] : PyList ℚ) ≠ [.float 0, .float 0] :=
  ⟨rfl, rfl, rfl, rfl, rfl, by decide⟩

/-- C5: the pickle pair.  The first function returns exactly `get_state()`.
The second, on a list of reals, fails if and only if the list does not have
exactly two elements, and on `[s, a]` returns the freshly constructed instance
after `set_state([s, a])`: scalar `s`, `_state` `a`, empty vector.  Hence the
second applied to the first always succeeds, with the same `get_state()`. -/
theorem pickle_pair [Zero R] :
    (∀ x : MicroSimulation R, __getstate__ x = x.get_state) ∧
    (∀ xs : List R,
      (∃ e, (__setstate__ (xs.map .float) : Except PyErr (MicroSimulation R)) = .error e)
        ↔ xs.length ≠ 2) ∧
    (∀ s a : R,
      (__setstate__ [.float s, .float a] : Except PyErr (MicroSimulation R))
        = .ok ((MicroSimulation.construct : MicroSimulation R).set_state
            [.float s, .float a]).1 ∧
      ((MicroSimulation.construct : MicroSimulation R).set_state [.float s, .float a]).1
        = { _micro_scalar_data := s, _micro_vector_data := [], _state := a }) ∧
    (∀ x : MicroSimulation R,
      ∃ y, __setstate__ (__getstate__ x) = .ok y ∧ y.get_state = x.get_state) := by
  have two : ∀ s a : R,
      (__setstate__ [.float s, .float a] : Except PyErr (MicroSimulation R))
        = .ok { _micro_scalar_data := s, _micro_vector_data := [], _state := a } := by
    intro s a
    simp [__setstate__, set_state_of_two_floats, MicroSimulation.construct]
  refine ⟨fun _ => rfl, ?_, ?_, ?_⟩
  · intro xs
    constructor
    · rintro ⟨e, he⟩ hlen
      match xs, hlen with
      | [s, a], _ =>
        rw [List.map_cons, List.map_cons, List.map_nil, two] at he
        cases he
    · intro hlen
      exact ⟨.runtimeError "Invalid state!", by simp [__setstate__, hlen]⟩
  · intro s a
    rw [two, set_state_of_two_floats]
    exact ⟨rfl, rfl⟩
  · intro x
    exact ⟨_, two _ _, rfl⟩

/-- C7: `set_state` never touches the vector, whatever the instance and the
list and whether it succeeds or not.  In particular, after a fresh instance `A`
has been stepped with the vector `[x]` (so that it holds `[x + 1]`), the fresh
instance set from the snapshot of `A` holds the empty vector of its
construction. -/
theorem set_state_keeps_vector [Zero R] [One R] [Add R] :
    (∀ (ms : MicroSimulation R) (l : PyList R),
      (ms.set_state l).1._micro_vector_data = ms._micro_vector_data) ∧
    (∀ s x dt : R, ∃ A out,
      (MicroSimulation.construct : MicroSimulation R).solve 2 (macroRecord s [x]) dt
        = some (A, .ok out) ∧
      A._micro_vector_data = [x + 1] ∧
      ((MicroSimulation.construct : MicroSimulation R).set_state A.get_state).1._micro_vector_data
        = [] ∧
      ([] : List R) ≠ [x + 1]) := by
  constructor
  · intro ms l
    rcases set_state_cases ms l with ⟨_, _, hr⟩ | ⟨_, _, _, _, hr⟩ | ⟨_, _, _, _, hr⟩ <;> rw [hr]
  · intro s x dt
    refine ⟨_, _, rfl, rfl, ?_, by simp⟩
    rw [set_state_of_get_state]
    rfl

/-- C9: for every instance, `set_state(get_state())` succeeds and leaves the
instance, scalar, `_state` and vector, as it was; `get_state()`, a function of
the instance alone, returns `[scalar, _state]` in that order. -/
theorem set_state_get_state_noop (ms : MicroSimulation R) :
    ms.set_state ms.get_state = (ms, .ok ()) ∧
    ms.get_state = [.float ms._micro_scalar_data, .float ms._state] := by
  refine ⟨?_, rfl⟩
  rw [set_state_of_get_state]

end MicroDummy
